import Mathlib

/-!
Shallow embedding of `ros/src/tl_detector/tl_detector.py` (class `TLDetector`)
together with proofs about its behaviour.

Modelling conventions:
* positions are exact rationals (the source uses Python floats);
* the source computes Euclidean distances with `math.sqrt` and only ever
  compares them (against each other and against constant thresholds, never
  publishing a distance); `Real.sqrt` is strictly monotone on nonnegative
  inputs, so each such comparison is equivalent to the comparison of the
  squared distances, and the embedding works with squared distances
  throughout, squaring the constant thresholds (`sqrt_dist_comparison` and
  `sqrt_threshold_comparison` below record the justification);
* a Python exception escaping a callback (an IndexError from
  `stop_line_positions[idx]`, or an AttributeError from querying the
  never-built KD-tree `self.waypoint_tree = None`) is modelled by
  `Option.none`;
* the Python truthiness test `if not self.waypoints_2d` in `waypoints_cb`
  holds for both `None` and the empty list, and is modelled exactly so;
* the value `False` returned by `get_light_state` when no image is present
  is kept distinct from the integer colour constants
  (`LightResult.pyFalse`); `lightResultVal` records how that value flows
  into the integer comparisons of `image_cb` (in Python `False == 0`, and
  `0` is `TrafficLight.RED`);
* the scipy KD-tree is an external dependency; its stored data is modelled
  as the point list it was built from, and its `query` method by an exact
  linear nearest-neighbour scan (see `kdtree_query`).
-/

namespace TLDetector

/-- Opaque payload of a camera image message (`sensor_msgs/Image`). -/
abbrev Img := Nat

/-- A 2-D position `(x, y)`. -/
abbrev Point := ℚ × ℚ

/-- Componentwise vector difference, as in `light_vect - car_vect`. -/
def vsub (a b : Point) : Point := (a.1 - b.1, a.2 - b.2)

/-- `np.dot` on 2-vectors. -/
def dotv (a b : Point) : ℚ := a.1 * b.1 + a.2 * b.2

/-- Squared Euclidean distance: the source computes
`math.sqrt(diff_x * diff_x + diff_y * diff_y)`; this is the argument of that
square root. -/
def dist_sq (a b : Point) : ℚ :=
  (a.1 - b.1) * (a.1 - b.1) + (a.2 - b.2) * (a.2 - b.2)

/-- Colour constants of `styx_msgs/TrafficLight`. -/
def RED : Nat := 0

/-- `styx_msgs/TrafficLight.YELLOW`. -/
def YELLOW : Nat := 1

/-- `styx_msgs/TrafficLight.GREEN`. -/
def GREEN : Nat := 2

/-- `styx_msgs/TrafficLight.UNKNOWN`. -/
def UNKNOWN : Nat := 4

/-- `STATE_COUNT_THRESHOLD = 3` (line 20 of the source). -/
def STATE_COUNT_THRESHOLD : Nat := 3

/-- `LIGHT_DISTANCE_THRESHOLD = 50` (line 21 of the source). The source
compares the (non-squared) distance against this, so the embedding compares
the squared distance against its square. -/
def LIGHT_DISTANCE_THRESHOLD : ℚ := 50

/-- The candidate accumulated by the selection loop of
`process_traffic_lights`: `stop_line_idx`, `closest_light` (modelled by the
light's state field) and `light_distance` (squared). -/
structure Cand where
  idx : Nat
  light : Nat
  distSq : ℚ
deriving DecidableEq

/-- The debounce fields of `TLDetector`: `self.state`, `self.last_state`,
`self.last_wp`, `self.state_count`. -/
structure Debounce where
  state : Nat
  last_state : Nat
  last_wp : Int
  state_count : Nat
deriving DecidableEq

/-- Result of `get_light_state`: either the Python literal `False`
(no-image branch, line 143) or the classifier's output. -/
inductive LightResult where
  | pyFalse : LightResult
  | classified : Nat → LightResult
deriving DecidableEq

/-- How a `LightResult` flows into the integer comparisons of `image_cb`:
Python compares `False` and integers numerically, and `False == 0`, which is
the numeric value of `TrafficLight.RED`. -/
def lightResultVal : LightResult → Nat
  | LightResult.pyFalse => 0
  | LightResult.classified st => st

/-- The mutable attributes of the `TLDetector` object that the decision
pipeline reads and writes (diagnostic-only attributes — the dataset file,
capture timestamps — are omitted; `try_image_capture` writes only those and
never changes the published output). -/
structure TLState where
  pose : Option Point
  previous_pose : Option Point
  waypoints : Option (List Point)
  waypoints_2d : Option (List Point)
  waypoint_tree : Option (List Point)
  camera_image : Option Img
  has_image : Bool
  lights : List Nat
  stop_line_positions : List Point
  state : Nat
  last_state : Nat
  last_wp : Int
  state_count : Nat
deriving DecidableEq

/-- `__init__` (lines 27–73): all caches empty, debounce at
`UNKNOWN`/`UNKNOWN`/`-1`/`0`; `stop_line_positions` comes from the
`/traffic_light_config` parameter. `self.has_image` is first assigned in
`image_cb`; before that, the no-image branch of `get_light_state` is the
intended reading, modelled as `false`. -/
def initState (stop_lines : List Point) : TLState :=
  { pose := none
    previous_pose := none
    waypoints := none
    waypoints_2d := none
    waypoint_tree := none
    camera_image := none
    has_image := false
    lights := []
    stop_line_positions := stop_lines
    state := UNKNOWN
    last_state := UNKNOWN
    last_wp := -1
    state_count := 0 }

/-- `pose_cb` (lines 75–77). -/
def pose_cb (s : TLState) (msg : Point) : TLState :=
  { s with previous_pose := s.pose, pose := some msg }

/-- The Python truthiness test `not self.waypoints_2d`: true for `None` and
for the empty list. -/
def waypoints_2d_unset : Option (List Point) → Bool
  | none => true
  | some l => l.isEmpty

/-- `waypoints_cb` (lines 79–83): always stores the message in
`self.waypoints`; builds `waypoints_2d` and the KD-tree only when
`not self.waypoints_2d` (truthiness: `None` or empty). The waypoint list is
delivered here directly as its 2-D positions. -/
def waypoints_cb (s : TLState) (wps : List Point) : TLState :=
  if waypoints_2d_unset s.waypoints_2d then
    { s with waypoints := some wps, waypoints_2d := some wps,
             waypoint_tree := some wps }
  else
    { s with waypoints := some wps }

/-- `traffic_cb` (lines 85–86): replaces the light list wholesale (each
light modelled by its state field). -/
def traffic_cb (s : TLState) (lights : List Nat) : TLState :=
  { s with lights := lights }

/-- The first two statements of `image_cb` (lines 96–97). -/
def set_image (s : TLState) (msg : Img) : TLState :=
  { s with has_image := true, camera_image := some msg }

/-- The scan of `KDTree.query([x, y], 1)` over points with indices
`i, i+1, …`, carrying the best index and its squared distance; a new point
wins only when strictly closer, so the first point of a tied distance is
kept (exact nearest-neighbour search, lowest index on ties). -/
def queryLoop (q : Point) : Nat → List Point → Nat → ℚ → Nat × ℚ
  | _, [], best, bestd => (best, bestd)
  | i, p :: ps, best, bestd =>
    if dist_sq p q < bestd then
      queryLoop q (i + 1) ps i (dist_sq p q)
    else
      queryLoop q (i + 1) ps best bestd

/-- Modelled from the spec: the nearest-neighbour search itself lives in
`scipy.spatial.KDTree` (an external dependency, not in this repository);
the spec gives its contract — return the index of the waypoint minimizing
Euclidean distance to the query point, ties broken by lowest index.
`none` models the failure of a query on an empty point set. -/
def kdtree_query (pts : List Point) (q : Point) : Option Nat :=
  match pts with
  | [] => none
  | p :: ps => some (queryLoop q 1 ps 0 (dist_sq p q)).1

/-- `get_closest_waypoint` (lines 118–129):
`self.waypoint_tree.query([x, y], 1)[1]`. `none` models the
AttributeError of querying while `self.waypoint_tree` is still `None`. -/
def get_closest_waypoint (s : TLState) (x y : ℚ) : Option Nat :=
  match s.waypoint_tree with
  | none => none
  | some pts => kdtree_query pts (x, y)

/-- `get_light_state` (lines 131–148): with no image, set
`prev_light_loc = None` (diagnostic only) and return the Python literal
`False`; otherwise decode `self.camera_image` and return the classifier's
output unmodified. The `_light` argument is the selected light; the body
never reads it. The outer `none` models the cv-bridge crash on a `None`
image (unreachable in the pipeline, where `image_cb` stores the image
first). -/
def get_light_state (classify : Img → Nat) (s : TLState) (_light : Nat) :
    Option LightResult :=
  if s.has_image = false then
    some LightResult.pyFalse
  else
    match s.camera_image with
    | none => none
    | some img => some (LightResult.classified (classify img))

/-- `distance < light_distance` where `light_distance` is the best distance
so far, starting at `float('inf')`: every distance beats the empty
accumulator. -/
def beats (d : ℚ) : Option Cand → Prop
  | none => True
  | some c => d < c.distSq

instance (d : ℚ) : (best : Option Cand) → Decidable (beats d best)
  | none => Decidable.isTrue trivial
  | some c => inferInstanceAs (Decidable (d < c.distSq))

/-- The candidate-selection loop of `process_traffic_lights`
(lines 183–198): iterate over `enumerate(self.lights)`, look up
`stop_line_positions[idx]` (IndexError — outer `none` — when out of range),
and keep the candidate when `val > 0 and distance < light_distance`, where
`light_distance` starts at infinity (modelled by the `none` accumulator
accepting any distance). -/
def selectLoop (p q : Point) (stops : List Point) :
    List Nat → Nat → Option Cand → Option (Option Cand)
  | [], _, best => some best
  | light :: ls, idx, best =>
    match stops[idx]? with
    | none => none
    | some sl =>
      let d := dist_sq p sl
      let val := dotv (vsub sl p) (vsub p q)
      selectLoop p q stops ls (idx + 1)
        (if 0 < val ∧ beats d best then some ⟨idx, light, d⟩ else best)

/-- The Candidate Selector: the pose guard (`if not None in (self.pose,
self.previous_pose)`, line 181) around the selection loop. With a missing
pose the loop body never runs and `closest_light` stays `None`
(`some none`); the outer `none` is the IndexError escape of the loop. -/
def select_candidate (pose previous_pose : Option Point)
    (lights : List Nat) (stops : List Point) : Option (Option Cand) :=
  match pose, previous_pose with
  | some p, some q => selectLoop p q stops lights 0 none
  | _, _ => some none

/-- `process_traffic_lights` (lines 166–213): run the selector; if a
candidate exists and its distance is strictly below
`LIGHT_DISTANCE_THRESHOLD`, resolve the light state (the source calls
`get_light_state` before `get_closest_waypoint`), map the candidate's stop
line through the KD-tree, and return `(waypoint index, state)`; otherwise
return `(-1, UNKNOWN)`. `try_image_capture` (called on the candidate before
the distance gate) only writes diagnostic files and is omitted. -/
def process_traffic_lights (classify : Img → Nat) (s : TLState) :
    Option (Int × Nat) :=
  match select_candidate s.pose s.previous_pose s.lights
      s.stop_line_positions with
  | none => none
  | some none => some (-1, UNKNOWN)
  | some (some c) =>
    if c.distSq < LIGHT_DISTANCE_THRESHOLD * LIGHT_DISTANCE_THRESHOLD then
      match get_light_state classify s c.light with
      | none => none
      | some lr =>
        match s.stop_line_positions[c.idx]? with
        | none => none
        | some sl =>
          match get_closest_waypoint s sl.1 sl.2 with
          | none => none
          | some wp => some ((wp : Int), lightResultVal lr)
    else some (-1, UNKNOWN)

/-- The debounce transition of `image_cb` (lines 106–116), acting on the
four debounce fields with the frame's `(light_wp, state)` pair; the second
component lists the values published to `/traffic_waypoint` during the
frame (the `self.state != state` branch publishes nothing).
`state_count` is written as `0 + 1` in the reset branch: the branch sets it
to `0` and line 116 increments it unconditionally afterwards. -/
def debounce_step (d : Debounce) (light_wp : Int) (st : Nat) :
    Debounce × List Int :=
  if d.state ≠ st then
    ({ d with state := st, state_count := 0 + 1 }, [])
  else if STATE_COUNT_THRESHOLD ≤ d.state_count then
    let wp := if st = RED then light_wp else -1
    ({ d with last_state := d.state, last_wp := wp,
              state_count := d.state_count + 1 }, [wp])
  else
    ({ d with state_count := d.state_count + 1 }, [d.last_wp])

/-- The debounce fields of the detector state. -/
def TLState.debounce (s : TLState) : Debounce :=
  ⟨s.state, s.last_state, s.last_wp, s.state_count⟩

/-- `image_cb` (lines 88–116): store the frame, run
`process_traffic_lights`, then the debounce transition. The result is the
updated state together with the list of integers published during the
frame; `none` models an exception escaping the callback. -/
def image_cb (classify : Img → Nat) (s : TLState) (msg : Img) :
    Option (TLState × List Int) :=
  let s1 := set_image s msg
  match process_traffic_lights classify s1 with
  | none => none
  | some (light_wp, st) =>
    let r := debounce_step s1.debounce light_wp st
    some ({ s1 with state := r.1.state, last_state := r.1.last_state,
                    last_wp := r.1.last_wp, state_count := r.1.state_count },
          r.2)

/-- The ahead test of the Candidate Selector:
`np.dot(light_vect - car_vect, car_vect - previous_car_vect) > 0` of
stop-line position `sl`, pose `p`, previous pose `q`. -/
def aheadOf (p q sl : Point) : Prop := 0 < dotv (vsub sl p) (vsub p q)

/-- What the selection loop's accumulator means after scanning the first
`n` intersections: either no scanned stop line is ahead, or the accumulator
holds a scanned, ahead stop line whose (squared) distance is minimal among
scanned ahead stop lines, with the lowest such index on ties. -/
def BestInv (p q : Point) (stops : List Point) (n : Nat) : Option Cand → Prop
  | none => ∀ (i : Nat) (sl : Point), i < n → stops[i]? = some sl →
      ¬ aheadOf p q sl
  | some c => c.idx < n
      ∧ (∃ sl : Point, stops[c.idx]? = some sl ∧ aheadOf p q sl
          ∧ c.distSq = dist_sq p sl)
      ∧ ∀ (i : Nat) (sl : Point), i < n → stops[i]? = some sl →
          aheadOf p q sl →
          c.distSq < dist_sq p sl ∨ (c.distSq = dist_sq p sl ∧ c.idx ≤ i)

/-- Initial debounce state (`__init__`, lines 68–71). -/
def debounce_init : Debounce := ⟨UNKNOWN, UNKNOWN, -1, 0⟩

/-- Feed a sequence of per-frame `(light_wp, state)` pairs through the
debounce transition, collecting each frame's published values. -/
def debounce_run (d : Debounce) : List (Int × Nat) → Debounce × List (List Int)
  | [] => (d, [])
  | (wp, st) :: rest =>
    let r := debounce_step d wp st
    let rr := debounce_run r.1 rest
    (rr.1, r.2 :: rr.2)

end TLDetector

namespace TLDetector

/-! ### Debounce behaviour (C1, C2) -/

/-- Claim C1, counterexample: with `THRESHOLD = 3`, debounce state initialized
to `UNKNOWN`/count `0`/last index `-1`, feeding
`[RED, RED, GREEN, RED, RED, RED]` with mapped waypoint index `7` does NOT
emit `7` at the sixth frame: the frames publish
`[], [-1], [], [], [-1], [-1]` — the sixth frame (the third consecutive
`RED` after the `GREEN`) still publishes `-1`, because the reset branch
leaves the counter at `1` after its unconditional increment, so the commit
test `count >= 3` first succeeds on the fourth consecutive frame. -/
theorem C1_sixth_frame_counterexample :
    (debounce_run debounce_init
      [((7 : Int), RED), (7, RED), (7, GREEN), (7, RED), (7, RED), (7, RED)]).2
      = [[], [-1], [], [], [-1], [-1]]
    ∧ (debounce_run debounce_init
      [((7 : Int), RED), (7, RED), (7, GREEN), (7, RED), (7, RED), (7, RED)]).2[5]?
      ≠ some [7] := by
  decide

/-- Claim C1, amended: with `THRESHOLD = 3` and the debounce state initialized
to `UNKNOWN`/count `0`/last published index `-1`, feeding
`[RED, RED, GREEN, RED, RED, RED, RED]` (each `RED` carrying the mapped
waypoint index `w`), the frames on which the resolved state changes
(1, 3, 4) emit nothing, frames 2, 5 and 6 emit `-1`, and the emitted output
first changes to `w` on the seventh frame — the fourth consecutive `RED`
after the `GREEN` reset, one frame later than the claim states. -/
theorem C1_commit_on_fourth_consecutive (w : Int) :
    (debounce_run debounce_init
      [(w, RED), (w, RED), (w, GREEN), (w, RED), (w, RED), (w, RED), (w, RED)]).2
      = [[], [-1], [], [], [-1], [-1], [w]] := by
  simp [debounce_run, debounce_step, debounce_init, STATE_COUNT_THRESHOLD,
    RED, GREEN, UNKNOWN]

/-- Claim C2, counterexample: a frame on which the newly resolved state
differs from `current_observed_state` publishes nothing, not one integer.
The state is reached from startup by delivering stop-line config `[(10,0)]`,
lights, waypoints `[(9,0)]` and two poses; the frame resolves `RED` while
the observed state is still `UNKNOWN`, takes the reset branch, and the list
of values published during the frame is empty. -/
theorem C2_reset_frame_publishes_nothing :
    (image_cb (fun _ => RED)
      (pose_cb (pose_cb (waypoints_cb (traffic_cb (initState [((10 : ℚ), 0)])
        [GREEN]) [((9 : ℚ), 0)]) ((0 : ℚ), 0)) ((1 : ℚ), 0)) 0).map
          (fun r => r.2.length) = some 0
    ∧ (0 : Nat) ≠ 1 := by
  constructor
  · norm_num [image_cb, set_image, process_traffic_lights, select_candidate,
      selectLoop, beats, dist_sq, dotv, vsub, pose_cb, waypoints_cb,
      traffic_cb, initState, waypoints_2d_unset, LIGHT_DISTANCE_THRESHOLD,
      get_light_state, get_closest_waypoint, kdtree_query, queryLoop,
      debounce_step, TLState.debounce, STATE_COUNT_THRESHOLD, RED, GREEN,
      UNKNOWN, lightResultVal]
  · decide

/-- Claim C2, amended: a processed frame (one whose callback completes)
publishes exactly one integer unless the newly resolved state differs from
`current_observed_state`; on such a reset frame nothing is published. -/
theorem C2_publish_except_reset (classify : Img → Nat) (s : TLState)
    (msg : Img) (wp : Int) (st : Nat)
    (hp : process_traffic_lights classify (set_image s msg) = some (wp, st)) :
    ∃ outs, (image_cb classify s msg).map (fun r => r.2) = some outs ∧
      (st ≠ s.state → outs = []) ∧ (st = s.state → outs.length = 1) := by
  refine ⟨(debounce_step (set_image s msg).debounce wp st).2, ?_, ?_, ?_⟩
  · simp [image_cb, hp]
  · intro hne
    simp [debounce_step, TLState.debounce, set_image, Ne.symm hne]
  · intro he
    simp only [debounce_step, TLState.debounce, set_image, he, ne_eq,
      not_true_eq_false, if_false]
    by_cases h : STATE_COUNT_THRESHOLD ≤ s.state_count <;> simp [h]

/-- Witness for `C2_publish_except_reset`: from the startup state with no
pose, the frame resolves `(-1, UNKNOWN)`, which equals the observed state,
and exactly one integer is published. -/
theorem C2_publish_except_reset_witness :
    process_traffic_lights (fun _ => GREEN) (set_image (initState []) 0)
      = some (-1, UNKNOWN)
    ∧ ∃ outs, (image_cb (fun _ => GREEN) (initState []) 0).map (fun r => r.2)
        = some outs ∧
      (UNKNOWN ≠ (initState []).state → outs = []) ∧
      (UNKNOWN = (initState []).state → outs.length = 1) := by
  have hp : process_traffic_lights (fun _ => GREEN) (set_image (initState []) 0)
      = some (-1, UNKNOWN) := by
    simp [process_traffic_lights, select_candidate, set_image, initState]
  exact ⟨hp, C2_publish_except_reset (fun _ => GREEN) (initState []) 0 (-1)
    UNKNOWN hp⟩

/-! ### Light State Resolver (C3, C10) -/

/-- Claim C3, counterexample: with no camera frame received, the no-image
branch of `get_light_state` returns the Python literal `False`, not
`UNKNOWN`; under Python's numeric comparison `False` equals `0`, which is
`TrafficLight.RED` — exactly the colour the claim says is never yielded. -/
theorem C3_no_image_counterexample :
    get_light_state (fun _ => GREEN) (initState []) RED
      = some LightResult.pyFalse
    ∧ lightResultVal LightResult.pyFalse = RED
    ∧ RED ≠ UNKNOWN := by
  refine ⟨by simp [get_light_state, initState], rfl, by decide⟩

/-- Claim C3, amended: whenever no camera frame has been received
(`has_image` still false), `get_light_state` returns the Python literal
`False` — it never invokes the classifier, but the value it returns is not
`UNKNOWN`: numerically it is `0`, which coincides with `RED`. -/
theorem C3_no_image_returns_false (classify : Img → Nat) (s : TLState)
    (light : Nat) (h : s.has_image = false) :
    get_light_state classify s light = some LightResult.pyFalse := by
  simp [get_light_state, h]

/-- Witness for `C3_no_image_returns_false` at the startup state. -/
theorem C3_no_image_returns_false_witness :
    (initState []).has_image = false
    ∧ get_light_state (fun _ => GREEN) (initState []) RED
        = some LightResult.pyFalse :=
  ⟨rfl, C3_no_image_returns_false (fun _ => GREEN) (initState []) RED rfl⟩

/-- Claim C10: inside `image_cb` the detector stores the camera frame and
sets `has_image` before running `process_traffic_lights`, so every call of
`get_light_state` made while processing a frame sees `has_image = true` and
returns exactly the classifier's output — the no-image branch (whose Python
return value `False` coincides numerically only with `RED = 0`) is
unreachable from the pipeline; consequently a completed frame's resolved
state is the classifier's output (or the untouched `(-1, UNKNOWN)` of the
no-candidate path). -/
theorem C10_no_image_branch_unreachable (classify : Img → Nat) (s : TLState)
    (msg : Img) :
    (∀ light, get_light_state classify (set_image s msg) light
        = some (LightResult.classified (classify msg)))
    ∧ (∀ wp st, process_traffic_lights classify (set_image s msg)
        = some (wp, st) → st = classify msg ∨ (wp, st) = (-1, UNKNOWN)) := by
  have hg : ∀ light, get_light_state classify (set_image s msg) light
      = some (LightResult.classified (classify msg)) := by
    intro light
    simp [get_light_state, set_image]
  refine ⟨hg, ?_⟩
  intro wp st hp
  unfold process_traffic_lights at hp
  split at hp
  · exact absurd hp (by simp)
  · simp only [Option.some.injEq, Prod.mk.injEq] at hp
    right
    simp [← hp.1, ← hp.2]
  · rw [hg] at hp
    split at hp
    · split at hp
      · exact absurd hp (by simp)
      · rename_i lr hlr
        split at hp
        · exact absurd hp (by simp)
        · split at hp
          · exact absurd hp (by simp)
          · simp only [Option.some.injEq] at hlr
            simp only [Option.some.injEq, Prod.mk.injEq] at hp
            left
            simp [← hp.2, ← hlr, lightResultVal]
    · simp only [Option.some.injEq, Prod.mk.injEq] at hp
      right
      simp [← hp.1, ← hp.2]

/-! ### Spatial index (C6, C7) -/

/-- Claim C6, counterexample: the build-once guard is the Python truthiness
test `not self.waypoints_2d`, which also holds for an empty list; if the
first delivered waypoint sequence is empty, a second delivery rebuilds the
index, and nearest-waypoint queries change (from the failing query on the
empty build to index 0 of the new build) — the second build is not a no-op
for every first sequence. -/
theorem C6_empty_first_build_counterexample :
    (waypoints_cb (initState []) []).waypoint_tree = some []
    ∧ (waypoints_cb (waypoints_cb (initState []) []) [((0 : ℚ), 0)]).waypoint_tree
        = some [((0 : ℚ), 0)]
    ∧ get_closest_waypoint (waypoints_cb (initState []) []) 0 0 = none
    ∧ get_closest_waypoint
        (waypoints_cb (waypoints_cb (initState []) []) [((0 : ℚ), 0)]) 0 0
        = some 0
    ∧ (none : Option Nat) ≠ some 0 := by
  refine ⟨?_, ?_, ?_, ?_, by simp⟩ <;>
    simp [waypoints_cb, waypoints_2d_unset, initState, get_closest_waypoint,
      kdtree_query, queryLoop]

/-- Claim C6, amended: for every NONEMPTY first waypoint sequence and every
later waypoint sequence, the second delivery leaves the built index
unchanged and nearest-waypoint queries return the same result as after the
first delivery (the second build is a no-op); with an empty first sequence
the truthiness guard rebuilds instead. -/
theorem C6_first_build_is_kept (s : TLState) (L1 L2 : List Point) (x y : ℚ)
    (h0 : s.waypoints_2d = none) (h1 : L1 ≠ []) :
    (waypoints_cb (waypoints_cb s L1) L2).waypoint_tree
        = (waypoints_cb s L1).waypoint_tree
    ∧ get_closest_waypoint (waypoints_cb (waypoints_cb s L1) L2) x y
        = get_closest_waypoint (waypoints_cb s L1) x y := by
  have hb : waypoints_cb s L1
      = { s with waypoints := some L1, waypoints_2d := some L1,
                 waypoint_tree := some L1 } := by
    simp [waypoints_cb, waypoints_2d_unset, h0]
  have h2 : waypoints_cb (waypoints_cb s L1) L2
      = { waypoints_cb s L1 with waypoints := some L2 } := by
    rw [hb]
    simp [waypoints_cb, waypoints_2d_unset, List.isEmpty_iff, h1]
  rw [h2]
  exact ⟨rfl, rfl⟩

/-- Witness for `C6_first_build_is_kept` at a concrete one-point path. -/
theorem C6_first_build_is_kept_witness :
    (initState []).waypoints_2d = none
    ∧ [((1 : ℚ), 2)] ≠ []
    ∧ ((waypoints_cb (waypoints_cb (initState []) [((1 : ℚ), 2)]) []).waypoint_tree
        = (waypoints_cb (initState []) [((1 : ℚ), 2)]).waypoint_tree
      ∧ get_closest_waypoint
          (waypoints_cb (waypoints_cb (initState []) [((1 : ℚ), 2)]) []) 0 0
        = get_closest_waypoint (waypoints_cb (initState []) [((1 : ℚ), 2)]) 0 0) :=
  ⟨rfl, by simp,
    C6_first_build_is_kept (initState []) [((1 : ℚ), 2)] [] 0 0 rfl (by simp)⟩

/-- Invariant of the nearest-neighbour scan `queryLoop`: the returned pair
is never worse than the incumbent `(best, bestd)`, is never worse than any
scanned point, and is either exactly the incumbent or the first scanned
point achieving the returned (strictly improved) distance. -/
theorem queryLoop_spec (q : Point) :
    ∀ (ps : List Point) (i best : Nat) (bestd : ℚ),
      (∀ (j : Nat) (pj : Point), ps[j]? = some pj →
        (queryLoop q i ps best bestd).2 ≤ dist_sq pj q)
      ∧ (queryLoop q i ps best bestd).2 ≤ bestd
      ∧ (queryLoop q i ps best bestd = (best, bestd)
         ∨ ∃ j pj, ps[j]? = some pj
             ∧ (queryLoop q i ps best bestd).1 = i + j
             ∧ (queryLoop q i ps best bestd).2 = dist_sq pj q
             ∧ (queryLoop q i ps best bestd).2 < bestd
             ∧ ∀ (j' : Nat) (pj' : Point), j' < j → ps[j']? = some pj' →
                 (queryLoop q i ps best bestd).2 < dist_sq pj' q) := by
  intro ps
  induction ps with
  | nil =>
    intro i best bestd
    refine ⟨?_, le_refl _, Or.inl rfl⟩
    intro j pj hj
    simp at hj
  | cons p0 ps' ih =>
    intro i best bestd
    by_cases hlt : dist_sq p0 q < bestd
    · have hr : queryLoop q i (p0 :: ps') best bestd
          = queryLoop q (i + 1) ps' i (dist_sq p0 q) := by
        simp [queryLoop, hlt]
      obtain ⟨ihA, ihB, ihC⟩ := ih (i + 1) i (dist_sq p0 q)
      rw [hr]
      refine ⟨?_, le_of_lt (lt_of_le_of_lt ihB hlt), ?_⟩
      · intro j pj hj
        cases j with
        | zero =>
          simp only [List.getElem?_cons_zero, Option.some.injEq] at hj
          exact hj ▸ ihB
        | succ j' =>
          rw [List.getElem?_cons_succ] at hj
          exact ihA j' pj hj
      · rcases ihC with hC | ⟨j, pj, hj, h1, h2, h3, h4⟩
        · refine Or.inr ⟨0, p0, List.getElem?_cons_zero, ?_, ?_, ?_, ?_⟩
          · rw [hC]; simp
          · rw [hC]
          · rw [hC]; exact hlt
          · intro j' pj' hj' _
            exact absurd hj' (Nat.not_lt_zero j')
        · refine Or.inr ⟨j + 1, pj, ?_, ?_, h2, lt_trans h3 hlt, ?_⟩
          · rw [List.getElem?_cons_succ]; exact hj
          · rw [h1]; ring
          · intro j' pj' hlt' hj'
            cases j' with
            | zero =>
              simp only [List.getElem?_cons_zero, Option.some.injEq] at hj'
              exact hj' ▸ h3
            | succ j'' =>
              rw [List.getElem?_cons_succ] at hj'
              exact h4 j'' pj' (Nat.lt_of_succ_lt_succ hlt') hj'
    · have hr : queryLoop q i (p0 :: ps') best bestd
          = queryLoop q (i + 1) ps' best bestd := by
        simp [queryLoop, hlt]
      obtain ⟨ihA, ihB, ihC⟩ := ih (i + 1) best bestd
      rw [hr]
      refine ⟨?_, ihB, ?_⟩
      · intro j pj hj
        cases j with
        | zero =>
          simp only [List.getElem?_cons_zero, Option.some.injEq] at hj
          exact hj ▸ le_trans ihB (le_of_not_lt hlt)
        | succ j' =>
          rw [List.getElem?_cons_succ] at hj
          exact ihA j' pj hj
      · rcases ihC with hC | ⟨j, pj, hj, h1, h2, h3, h4⟩
        · exact Or.inl hC
        · refine Or.inr ⟨j + 1, pj, ?_, ?_, h2, h3, ?_⟩
          · rw [List.getElem?_cons_succ]; exact hj
          · rw [h1]; ring
          · intro j' pj' hlt' hj'
            cases j' with
            | zero =>
              simp only [List.getElem?_cons_zero, Option.some.injEq] at hj'
              exact hj' ▸ lt_of_lt_of_le h3 (le_of_not_lt hlt)
            | succ j'' =>
              rw [List.getElem?_cons_succ] at hj'
              exact h4 j'' pj' (Nat.lt_of_succ_lt_succ hlt') hj'

/-- Claim C7: on a built waypoint set, `get_closest_waypoint` returns the
index of a waypoint minimizing the Euclidean distance to the query point
(distances compared through their squares, `math.sqrt` being strictly
monotone), and when several waypoints are equidistant the lowest such index
is returned: every other index either lies strictly farther or is
not smaller. -/
theorem C7_query_returns_nearest (s : TLState) (pts : List Point) (x y : ℚ)
    (h : s.waypoint_tree = some pts) (hne : pts ≠ []) :
    ∃ (i : Nat) (pi : Point), get_closest_waypoint s x y = some i
      ∧ pts[i]? = some pi
      ∧ ∀ (j : Nat) (pj : Point), pts[j]? = some pj →
        dist_sq pi (x, y) < dist_sq pj (x, y)
        ∨ (dist_sq pi (x, y) = dist_sq pj (x, y) ∧ i ≤ j) := by
  obtain ⟨p, ps, rfl⟩ := List.exists_cons_of_ne_nil hne
  obtain ⟨hA, hB, hC⟩ := queryLoop_spec (x, y) ps 1 0 (dist_sq p (x, y))
  have hq : get_closest_waypoint s x y
      = some (queryLoop (x, y) 1 ps 0 (dist_sq p (x, y))).1 := by
    simp [get_closest_waypoint, h, kdtree_query]
  rcases hC with hC | ⟨j, pj, hj, h1, h2, h3, h4⟩
  · refine ⟨0, p, by rw [hq, hC], List.getElem?_cons_zero, ?_⟩
    intro j pj hjp
    have hle : dist_sq p (x, y) ≤ dist_sq pj (x, y) := by
      cases j with
      | zero =>
        simp only [List.getElem?_cons_zero, Option.some.injEq] at hjp
        rw [hjp]
      | succ j' =>
        rw [List.getElem?_cons_succ] at hjp
        have := hA j' pj hjp
        rw [hC] at this
        exact this
    rcases lt_or_eq_of_le hle with hlt | heq
    · exact Or.inl hlt
    · exact Or.inr ⟨heq, Nat.zero_le j⟩
  · refine ⟨1 + j, pj, by rw [hq, h1], ?_, ?_⟩
    · rw [Nat.add_comm, List.getElem?_cons_succ]
      exact hj
    · intro j' pj' hjp
      rw [← h2]
      cases j' with
      | zero =>
        simp only [List.getElem?_cons_zero, Option.some.injEq] at hjp
        exact Or.inl (hjp ▸ h3)
      | succ j'' =>
        rw [List.getElem?_cons_succ] at hjp
        rcases Nat.lt_or_ge j'' j with hlt' | hge
        · exact Or.inl (h4 j'' pj' hlt' hjp)
        · rcases lt_or_eq_of_le (hA j'' pj' hjp) with hlt2 | heq2
          · exact Or.inl hlt2
          · exact Or.inr ⟨heq2, by omega⟩

/-- Witness for `C7_query_returns_nearest`: the synthetic 4-point square
path, queried at its centroid (all four corners equidistant). -/
theorem C7_query_returns_nearest_witness :
    (waypoints_cb (initState [])
        [((0 : ℚ), 0), (2, 0), (2, 2), (0, 2)]).waypoint_tree
      = some [((0 : ℚ), 0), (2, 0), (2, 2), (0, 2)]
    ∧ [((0 : ℚ), 0), (2, 0), (2, 2), (0, 2)] ≠ []
    ∧ ∃ (i : Nat) (pi : Point),
        get_closest_waypoint
          (waypoints_cb (initState []) [((0 : ℚ), 0), (2, 0), (2, 2), (0, 2)])
          1 1 = some i
        ∧ [((0 : ℚ), 0), (2, 0), (2, 2), (0, 2)][i]? = some pi
        ∧ ∀ (j : Nat) (pj : Point),
            [((0 : ℚ), 0), (2, 0), (2, 2), (0, 2)][j]? = some pj →
            dist_sq pi (1, 1) < dist_sq pj (1, 1)
            ∨ (dist_sq pi (1, 1) = dist_sq pj (1, 1) ∧ i ≤ j) := by
  have h : (waypoints_cb (initState [])
      [((0 : ℚ), 0), (2, 0), (2, 2), (0, 2)]).waypoint_tree
      = some [((0 : ℚ), 0), (2, 0), (2, 2), (0, 2)] := by
    simp [waypoints_cb, waypoints_2d_unset, initState]
  exact ⟨h, by simp,
    C7_query_returns_nearest _ _ 1 1 h (by simp)⟩

/-! ### Candidate Selector (C4, C5, C8, C9) -/

/-- One step of the selection loop preserves the accumulator invariant. -/
theorem BestInv_step (p q : Point) (stops : List Point) (k : Nat)
    (best : Option Cand) (l : Nat) (sl : Point)
    (hsl : stops[k]? = some sl) (hinv : BestInv p q stops k best) :
    BestInv p q stops (k + 1)
      (if 0 < dotv (vsub sl p) (vsub p q) ∧ beats (dist_sq p sl) best then
        some ⟨k, l, dist_sq p sl⟩
      else best) := by
  by_cases hc : 0 < dotv (vsub sl p) (vsub p q) ∧ beats (dist_sq p sl) best
  · rw [if_pos hc]
    cases best with
    | none =>
      refine ⟨Nat.lt_succ_self k, ⟨sl, hsl, hc.1, rfl⟩, ?_⟩
      intro i sl' hi hsl' ha
      rcases Nat.lt_succ_iff_lt_or_eq.mp hi with hik | hik
      · exact absurd ha (hinv i sl' hik hsl')
      · subst hik
        rw [hsl] at hsl'
        simp only [Option.some.injEq] at hsl'
        subst hsl'
        exact Or.inr ⟨rfl, Nat.le_refl _⟩
    | some c =>
      obtain ⟨hck, _, hcmin⟩ := hinv
      have hdc : dist_sq p sl < c.distSq := hc.2
      refine ⟨Nat.lt_succ_self k, ⟨sl, hsl, hc.1, rfl⟩, ?_⟩
      intro i sl' hi hsl' ha
      rcases Nat.lt_succ_iff_lt_or_eq.mp hi with hik | hik
      · have hle : c.distSq ≤ dist_sq p sl' := by
          rcases hcmin i sl' hik hsl' ha with hlt | ⟨heq, _⟩
          · exact le_of_lt hlt
          · exact le_of_eq heq
        exact Or.inl (lt_of_lt_of_le hdc hle)
      · subst hik
        rw [hsl] at hsl'
        simp only [Option.some.injEq] at hsl'
        subst hsl'
        exact Or.inr ⟨rfl, Nat.le_refl _⟩
  · rw [if_neg hc]
    cases best with
    | none =>
      intro i sl' hi hsl' ha
      rcases Nat.lt_succ_iff_lt_or_eq.mp hi with hik | hik
      · exact absurd ha (hinv i sl' hik hsl')
      · subst hik
        rw [hsl] at hsl'
        simp only [Option.some.injEq] at hsl'
        subst hsl'
        exact hc ⟨ha, trivial⟩
    | some c =>
      obtain ⟨hck, hcw, hcmin⟩ := hinv
      refine ⟨Nat.lt_succ_of_lt hck, hcw, ?_⟩
      intro i sl' hi hsl' ha
      rcases Nat.lt_succ_iff_lt_or_eq.mp hi with hik | hik
      · exact hcmin i sl' hik hsl' ha
      · subst hik
        rw [hsl] at hsl'
        simp only [Option.some.injEq] at hsl'
        subst hsl'
        have hnot : ¬ dist_sq p sl < c.distSq := fun hdl => hc ⟨ha, hdl⟩
        rcases lt_or_eq_of_le (le_of_not_lt hnot) with hlt | heq
        · exact Or.inl hlt
        · exact Or.inr ⟨heq, Nat.le_of_lt hck⟩

/-- The selection loop, started with every scanned index in range, never
raises and returns an accumulator satisfying the invariant for the full
scanned range. -/
theorem selectLoop_inv (p q : Point) (stops : List Point) :
    ∀ (ls : List Nat) (k : Nat) (best : Option Cand),
      k + ls.length ≤ stops.length →
      BestInv p q stops k best →
      ∃ b, selectLoop p q stops ls k best = some b
        ∧ BestInv p q stops (k + ls.length) b := by
  intro ls
  induction ls with
  | nil =>
    intro k best _ hinv
    exact ⟨best, rfl, by simpa using hinv⟩
  | cons l ls' ih =>
    intro k best hlen hinv
    have hk : k < stops.length := by
      simp only [List.length_cons] at hlen
      omega
    obtain ⟨sl, hsl⟩ : ∃ sl, stops[k]? = some sl :=
      ⟨stops[k], List.getElem?_eq_getElem hk⟩
    have hstep : selectLoop p q stops (l :: ls') k best
        = selectLoop p q stops ls' (k + 1)
            (if 0 < dotv (vsub sl p) (vsub p q) ∧ beats (dist_sq p sl) best
             then some ⟨k, l, dist_sq p sl⟩ else best) := by
      simp only [selectLoop, hsl]
    have hlen' : (k + 1) + ls'.length ≤ stops.length := by
      simp only [List.length_cons] at hlen
      omega
    obtain ⟨b, hb, hbinv⟩ := ih (k + 1)
      (if 0 < dotv (vsub sl p) (vsub p q) ∧ beats (dist_sq p sl) best
       then some ⟨k, l, dist_sq p sl⟩ else best) hlen'
      (BestInv_step p q stops k best l sl hsl hinv)
    refine ⟨b, by rw [hstep]; exact hb, ?_⟩
    have harith : (k + 1) + ls'.length = k + (l :: ls').length := by
      simp only [List.length_cons]
      omega
    rw [← harith]
    exact hbinv

/-- The selection loop raises an IndexError exactly when it runs past the
end of the stop-line list, i.e. when the scan is longer than the list. -/
theorem selectLoop_none_iff (p q : Point) (stops : List Point) :
    ∀ (ls : List Nat) (k : Nat) (best : Option Cand), k ≤ stops.length →
      (selectLoop p q stops ls k best = none ↔ stops.length < k + ls.length) := by
  intro ls
  induction ls with
  | nil =>
    intro k best hk
    simp only [selectLoop, List.length_cons, List.length_nil, Nat.add_zero]
    constructor
    · intro h; exact absurd h (by simp)
    · intro h; exact absurd h (by omega)
  | cons l ls' ih =>
    intro k best hk
    rcases Nat.lt_or_ge k stops.length with hlt | hge
    · obtain ⟨sl, hsl⟩ : ∃ sl, stops[k]? = some sl :=
        ⟨stops[k], List.getElem?_eq_getElem hlt⟩
      have hstep : selectLoop p q stops (l :: ls') k best
          = selectLoop p q stops ls' (k + 1)
              (if 0 < dotv (vsub sl p) (vsub p q) ∧ beats (dist_sq p sl) best
               then some ⟨k, l, dist_sq p sl⟩ else best) := by
        simp only [selectLoop, hsl]
      rw [hstep, ih (k + 1) _ hlt]
      simp only [List.length_cons]
      omega
    · have hk' : k = stops.length := le_antisymm hk hge
      have hsl : stops[k]? = none := by
        rw [List.getElem?_eq_none]
        omega
      have hstep : selectLoop p q stops (l :: ls') k best = none := by
        simp only [selectLoop, hsl]
      rw [hstep]
      simp only [List.length_cons]
      constructor
      · intro _; omega
      · intro _; trivial

/-- Claim C4: the Candidate Selector returns no candidate when either pose
is absent; with both poses present it returns the intersection index that
minimizes the (squared) distance from the pose to the stop line among
exactly the indices whose stop line is ahead
(`dot(stop_line - pose, pose - previous_pose) > 0`), breaking distance ties
by the lowest index, and returns no candidate when no index is ahead. -/
theorem C4_candidate_selection (pose previous_pose : Option Point)
    (lights : List Nat) (stops : List Point)
    (hlen : lights.length ≤ stops.length) :
    ((pose = none ∨ previous_pose = none) →
      select_candidate pose previous_pose lights stops = some none)
    ∧ ∀ p q : Point, pose = some p → previous_pose = some q →
        ∃ best, select_candidate pose previous_pose lights stops = some best
          ∧ (best = none → ∀ (i : Nat) (sl : Point), i < lights.length →
              stops[i]? = some sl → ¬ aheadOf p q sl)
          ∧ ∀ c : Cand, best = some c →
              c.idx < lights.length
              ∧ (∃ sl : Point, stops[c.idx]? = some sl ∧ aheadOf p q sl
                  ∧ c.distSq = dist_sq p sl)
              ∧ ∀ (i : Nat) (sl : Point), i < lights.length →
                  stops[i]? = some sl → aheadOf p q sl →
                  c.distSq < dist_sq p sl
                  ∨ (c.distSq = dist_sq p sl ∧ c.idx ≤ i) := by
  constructor
  · intro h
    rcases pose with _ | p
    · rfl
    · rcases previous_pose with _ | q
      · rfl
      · rcases h with h | h <;> exact absurd h (by simp)
  · intro p q hp hq
    subst hp
    subst hq
    have h0 : BestInv p q stops 0 none := by
      intro i sl hi _
      exact absurd hi (Nat.not_lt_zero i)
    obtain ⟨b, hb, hbinv⟩ := selectLoop_inv p q stops lights 0 none
      (by simpa using hlen) h0
    rw [Nat.zero_add] at hbinv
    refine ⟨b, by simpa [select_candidate] using hb, ?_, ?_⟩
    · intro hbn
      subst hbn
      exact hbinv
    · intro c hbc
      subst hbc
      exact hbinv

/-- Witness for `C4_candidate_selection`: previous pose `(0,0)`, pose
`(1,0)`, two lights with stop lines at `(5,0)` (ahead) and `(-5,0)`
(behind). -/
theorem C4_candidate_selection_witness :
    [GREEN, GREEN].length ≤ [((5 : ℚ), 0), (-5, 0)].length
    ∧ (((some ((1 : ℚ), (0 : ℚ)) : Option Point) = none
          ∨ (some ((0 : ℚ), (0 : ℚ)) : Option Point) = none) →
        select_candidate (some ((1 : ℚ), 0)) (some ((0 : ℚ), 0))
          [GREEN, GREEN] [((5 : ℚ), 0), (-5, 0)] = some none)
    ∧ ∀ p q : Point, (some ((1 : ℚ), (0 : ℚ)) : Option Point) = some p →
        (some ((0 : ℚ), (0 : ℚ)) : Option Point) = some q →
        ∃ best, select_candidate (some ((1 : ℚ), 0)) (some ((0 : ℚ), 0))
            [GREEN, GREEN] [((5 : ℚ), 0), (-5, 0)] = some best
          ∧ (best = none → ∀ (i : Nat) (sl : Point),
              i < [GREEN, GREEN].length →
              [((5 : ℚ), 0), (-5, 0)][i]? = some sl → ¬ aheadOf p q sl)
          ∧ ∀ c : Cand, best = some c →
              c.idx < [GREEN, GREEN].length
              ∧ (∃ sl : Point, [((5 : ℚ), 0), (-5, 0)][c.idx]? = some sl
                  ∧ aheadOf p q sl ∧ c.distSq = dist_sq p sl)
              ∧ ∀ (i : Nat) (sl : Point), i < [GREEN, GREEN].length →
                  [((5 : ℚ), 0), (-5, 0)][i]? = some sl → aheadOf p q sl →
                  c.distSq < dist_sq p sl
                  ∨ (c.distSq = dist_sq p sl ∧ c.idx ≤ i) := by
  have h := C4_candidate_selection (some ((1 : ℚ), 0)) (some ((0 : ℚ), 0))
    [GREEN, GREEN] [((5 : ℚ), 0), (-5, 0)] (by simp)
  exact ⟨by simp, h.1, h.2⟩

/-- Claim C5: with a selected ahead-candidate, if its distance is not
strictly below the relevance threshold (50 units, compared through squares)
the frame resolves to `(-1, UNKNOWN)` for every classifier — the classifier
is not consulted; if it is strictly below, `process_traffic_lights` returns
the candidate's mapped stop-line waypoint index together with the
classifier's output on the stored frame. -/
theorem C5_distance_gate (classify : Img → Nat) (s : TLState) (c : Cand)
    (hsel : select_candidate s.pose s.previous_pose s.lights
        s.stop_line_positions = some (some c)) :
    (¬ c.distSq < LIGHT_DISTANCE_THRESHOLD * LIGHT_DISTANCE_THRESHOLD →
      process_traffic_lights classify s = some (-1, UNKNOWN))
    ∧ ∀ (img : Img) (sl : Point) (wp : Nat),
        c.distSq < LIGHT_DISTANCE_THRESHOLD * LIGHT_DISTANCE_THRESHOLD →
        s.has_image = true → s.camera_image = some img →
        s.stop_line_positions[c.idx]? = some sl →
        get_closest_waypoint s sl.1 sl.2 = some wp →
        process_traffic_lights classify s = some ((wp : Int), classify img) := by
  constructor
  · intro hnot
    simp [process_traffic_lights, hsel, hnot]
  · intro img sl wp hd himg hcam hsl hwp
    simp [process_traffic_lights, hsel, hd, get_light_state, himg, hcam,
      hsl, hwp, lightResultVal]

/-- Witness for `C5_distance_gate`: a sole ahead-candidate at distance 49
(squared 2401), selected from pose `(1,0)`, previous pose `(0,0)`, stop
line `(50,0)`. -/
theorem C5_distance_gate_witness :
    select_candidate
        (pose_cb (pose_cb (traffic_cb (initState [((50 : ℚ), 0)]) [GREEN])
          ((0 : ℚ), 0)) ((1 : ℚ), 0)).pose
        (pose_cb (pose_cb (traffic_cb (initState [((50 : ℚ), 0)]) [GREEN])
          ((0 : ℚ), 0)) ((1 : ℚ), 0)).previous_pose
        (pose_cb (pose_cb (traffic_cb (initState [((50 : ℚ), 0)]) [GREEN])
          ((0 : ℚ), 0)) ((1 : ℚ), 0)).lights
        (pose_cb (pose_cb (traffic_cb (initState [((50 : ℚ), 0)]) [GREEN])
          ((0 : ℚ), 0)) ((1 : ℚ), 0)).stop_line_positions
      = some (some ⟨0, GREEN, 2401⟩)
    ∧ ((¬ (⟨0, GREEN, 2401⟩ : Cand).distSq
          < LIGHT_DISTANCE_THRESHOLD * LIGHT_DISTANCE_THRESHOLD →
        process_traffic_lights (fun _ => YELLOW)
          (pose_cb (pose_cb (traffic_cb (initState [((50 : ℚ), 0)]) [GREEN])
            ((0 : ℚ), 0)) ((1 : ℚ), 0)) = some (-1, UNKNOWN))
      ∧ ∀ (img : Img) (sl : Point) (wp : Nat),
          (⟨0, GREEN, 2401⟩ : Cand).distSq
            < LIGHT_DISTANCE_THRESHOLD * LIGHT_DISTANCE_THRESHOLD →
          (pose_cb (pose_cb (traffic_cb (initState [((50 : ℚ), 0)]) [GREEN])
            ((0 : ℚ), 0)) ((1 : ℚ), 0)).has_image = true →
          (pose_cb (pose_cb (traffic_cb (initState [((50 : ℚ), 0)]) [GREEN])
            ((0 : ℚ), 0)) ((1 : ℚ), 0)).camera_image = some img →
          (pose_cb (pose_cb (traffic_cb (initState [((50 : ℚ), 0)]) [GREEN])
            ((0 : ℚ), 0)) ((1 : ℚ), 0)).stop_line_positions[
              (⟨0, GREEN, 2401⟩ : Cand).idx]? = some sl →
          get_closest_waypoint
            (pose_cb (pose_cb (traffic_cb (initState [((50 : ℚ), 0)]) [GREEN])
              ((0 : ℚ), 0)) ((1 : ℚ), 0)) sl.1 sl.2 = some wp →
          process_traffic_lights (fun _ => YELLOW)
            (pose_cb (pose_cb (traffic_cb (initState [((50 : ℚ), 0)]) [GREEN])
              ((0 : ℚ), 0)) ((1 : ℚ), 0))
            = some ((wp : Int), (fun _ => YELLOW) img)) := by
  have hsel : select_candidate
      (pose_cb (pose_cb (traffic_cb (initState [((50 : ℚ), 0)]) [GREEN])
        ((0 : ℚ), 0)) ((1 : ℚ), 0)).pose
      (pose_cb (pose_cb (traffic_cb (initState [((50 : ℚ), 0)]) [GREEN])
        ((0 : ℚ), 0)) ((1 : ℚ), 0)).previous_pose
      (pose_cb (pose_cb (traffic_cb (initState [((50 : ℚ), 0)]) [GREEN])
        ((0 : ℚ), 0)) ((1 : ℚ), 0)).lights
      (pose_cb (pose_cb (traffic_cb (initState [((50 : ℚ), 0)]) [GREEN])
        ((0 : ℚ), 0)) ((1 : ℚ), 0)).stop_line_positions
      = some (some ⟨0, GREEN, 2401⟩) := by
    norm_num [select_candidate, selectLoop, beats, dist_sq, dotv, vsub,
      pose_cb, traffic_cb, initState]
  exact ⟨hsel, C5_distance_gate (fun _ => YELLOW) _ _ hsel⟩

/-- Claim C8, counterexample: nothing validates the 1:1 stop-line/light
alignment at startup; the state below has two configured stop lines but one
light, and a perception frame is still fully processed (the callback
completes and publishes), contradicting "no frame is ever processed under a
length mismatch". -/
theorem C8_mismatch_counterexample :
    (pose_cb (pose_cb (waypoints_cb (traffic_cb
        (initState [((10 : ℚ), 0), (20, 0)]) [GREEN]) [((9 : ℚ), 0)])
        ((0 : ℚ), 0)) ((1 : ℚ), 0)).stop_line_positions.length = 2
    ∧ (pose_cb (pose_cb (waypoints_cb (traffic_cb
        (initState [((10 : ℚ), 0), (20, 0)]) [GREEN]) [((9 : ℚ), 0)])
        ((0 : ℚ), 0)) ((1 : ℚ), 0)).lights.length = 1
    ∧ (2 : Nat) ≠ 1
    ∧ (image_cb (fun _ => RED) (pose_cb (pose_cb (waypoints_cb (traffic_cb
        (initState [((10 : ℚ), 0), (20, 0)]) [GREEN]) [((9 : ℚ), 0)])
        ((0 : ℚ), 0)) ((1 : ℚ), 0)) 0).isSome = true := by
  refine ⟨?_, ?_, by decide, ?_⟩
  · simp [pose_cb, waypoints_cb, traffic_cb, initState, waypoints_2d_unset]
  · simp [pose_cb, waypoints_cb, traffic_cb, initState, waypoints_2d_unset]
  · norm_num [image_cb, set_image, process_traffic_lights, select_candidate,
      selectLoop, beats, dist_sq, dotv, vsub, pose_cb, waypoints_cb,
      traffic_cb, initState, waypoints_2d_unset, LIGHT_DISTANCE_THRESHOLD,
      get_light_state, get_closest_waypoint, kdtree_query, queryLoop,
      debounce_step, TLState.debounce, STATE_COUNT_THRESHOLD, RED, GREEN,
      UNKNOWN, lightResultVal]

/-- Claim C8, amended: the code performs no alignment validation at
startup; with both poses present, the selector raises an out-of-range
access during frame processing exactly when the light list is longer than
the stop-line list, and under any other mismatch (more stop lines than
lights) the extra stop lines are silently ignored and frames are processed
normally. -/
theorem C8_mismatch_only_fails_in_frame (p q : Point) (lights : List Nat)
    (stops : List Point) :
    select_candidate (some p) (some q) lights stops = none
      ↔ stops.length < lights.length := by
  have h := selectLoop_none_iff p q stops lights 0 none (Nat.zero_le _)
  simpa [select_candidate] using h

/-- Claim C9, counterexample: a frame processed before any path update DOES
reach the spatial-index query. With stop-line config `[(10,0)]`, one light,
poses `(0,0)` then `(1,0)` and no waypoints ever delivered, the candidate
is selected (squared distance 81, within the gate), the classifier runs,
and the frame then queries `get_closest_waypoint` with
`waypoint_tree = None` — the callback dies there (`none`). -/
theorem C9_unguarded_query_counterexample :
    (set_image (pose_cb (pose_cb (traffic_cb (initState [((10 : ℚ), 0)]) [GREEN])
      ((0 : ℚ), 0)) ((1 : ℚ), 0)) 0).waypoint_tree = none
    ∧ select_candidate (set_image (pose_cb (pose_cb (traffic_cb (initState [((10 : ℚ), 0)]) [GREEN])
      ((0 : ℚ), 0)) ((1 : ℚ), 0)) 0).pose
        (set_image (pose_cb (pose_cb (traffic_cb (initState [((10 : ℚ), 0)]) [GREEN])
      ((0 : ℚ), 0)) ((1 : ℚ), 0)) 0).previous_pose
        (set_image (pose_cb (pose_cb (traffic_cb (initState [((10 : ℚ), 0)]) [GREEN])
      ((0 : ℚ), 0)) ((1 : ℚ), 0)) 0).lights
        (set_image (pose_cb (pose_cb (traffic_cb (initState [((10 : ℚ), 0)]) [GREEN])
      ((0 : ℚ), 0)) ((1 : ℚ), 0)) 0).stop_line_positions
        = some (some ⟨0, GREEN, 81⟩)
    ∧ ((81 : ℚ) < LIGHT_DISTANCE_THRESHOLD * LIGHT_DISTANCE_THRESHOLD)
    ∧ get_light_state (fun _ => RED) (set_image (pose_cb (pose_cb (traffic_cb (initState [((10 : ℚ), 0)]) [GREEN])
      ((0 : ℚ), 0)) ((1 : ℚ), 0)) 0) GREEN
        = some (LightResult.classified RED)
    ∧ get_closest_waypoint (set_image (pose_cb (pose_cb (traffic_cb (initState [((10 : ℚ), 0)]) [GREEN])
      ((0 : ℚ), 0)) ((1 : ℚ), 0)) 0) 10 0 = none
    ∧ image_cb (fun _ => RED) (pose_cb (pose_cb (traffic_cb (initState [((10 : ℚ), 0)]) [GREEN])
      ((0 : ℚ), 0)) ((1 : ℚ), 0)) 0 = none := by
  refine ⟨rfl, ?_, by norm_num [LIGHT_DISTANCE_THRESHOLD], rfl, rfl, ?_⟩
  · norm_num [select_candidate, selectLoop, beats, dist_sq, dotv, vsub,
      set_image, pose_cb, traffic_cb, initState]
  · norm_num [image_cb, set_image, process_traffic_lights, select_candidate,
      selectLoop, beats, dist_sq, dotv, vsub, pose_cb, traffic_cb, initState,
      LIGHT_DISTANCE_THRESHOLD, get_light_state, get_closest_waypoint]

/-- Claim C9, amended: `image_cb` has no "path received" guard; whenever the
cached state selects a candidate within the relevance gate while
`waypoint_tree` is still unbuilt, the frame's processing reaches
`get_closest_waypoint`, whose query on the missing tree kills the callback
(modelled `none`) — the fatal outcome the spec describes, but not
prevented by the Orchestrator. -/
theorem C9_no_path_guard (classify : Img → Nat) (s : TLState) (msg : Img)
    (c : Cand) (sl : Point)
    (htree : s.waypoint_tree = none)
    (hsel : select_candidate s.pose s.previous_pose s.lights
        s.stop_line_positions = some (some c))
    (hd : c.distSq < LIGHT_DISTANCE_THRESHOLD * LIGHT_DISTANCE_THRESHOLD)
    (hsl : s.stop_line_positions[c.idx]? = some sl) :
    image_cb classify s msg = none := by
  have hsel' : select_candidate (set_image s msg).pose
      (set_image s msg).previous_pose (set_image s msg).lights
      (set_image s msg).stop_line_positions = some (some c) := by
    simpa [set_image] using hsel
  simp [image_cb, process_traffic_lights, hsel, hsel', hd, get_light_state,
    set_image, hsl, get_closest_waypoint, htree]

/-- Witness for `C9_no_path_guard` at a concrete no-path state. -/
theorem C9_no_path_guard_witness :
    (pose_cb (pose_cb (traffic_cb (initState [((10 : ℚ), 0)]) [GREEN])
      ((0 : ℚ), 0)) ((1 : ℚ), 0)).waypoint_tree = none
    ∧ select_candidate (pose_cb (pose_cb (traffic_cb (initState [((10 : ℚ), 0)]) [GREEN])
      ((0 : ℚ), 0)) ((1 : ℚ), 0)).pose
        (pose_cb (pose_cb (traffic_cb (initState [((10 : ℚ), 0)]) [GREEN])
      ((0 : ℚ), 0)) ((1 : ℚ), 0)).previous_pose
        (pose_cb (pose_cb (traffic_cb (initState [((10 : ℚ), 0)]) [GREEN])
      ((0 : ℚ), 0)) ((1 : ℚ), 0)).lights
        (pose_cb (pose_cb (traffic_cb (initState [((10 : ℚ), 0)]) [GREEN])
      ((0 : ℚ), 0)) ((1 : ℚ), 0)).stop_line_positions = some (some ⟨0, GREEN, 81⟩)
    ∧ ((⟨0, GREEN, 81⟩ : Cand).distSq
        < LIGHT_DISTANCE_THRESHOLD * LIGHT_DISTANCE_THRESHOLD)
    ∧ (pose_cb (pose_cb (traffic_cb (initState [((10 : ℚ), 0)]) [GREEN])
      ((0 : ℚ), 0)) ((1 : ℚ), 0)).stop_line_positions[(⟨0, GREEN, 81⟩ : Cand).idx]?
        = some ((10 : ℚ), 0)
    ∧ image_cb (fun _ => GREEN) (pose_cb (pose_cb (traffic_cb (initState [((10 : ℚ), 0)]) [GREEN])
      ((0 : ℚ), 0)) ((1 : ℚ), 0)) 0 = none := by
  have htree : (pose_cb (pose_cb (traffic_cb (initState [((10 : ℚ), 0)]) [GREEN])
      ((0 : ℚ), 0)) ((1 : ℚ), 0)).waypoint_tree = none := rfl
  have hsel : select_candidate (pose_cb (pose_cb (traffic_cb (initState [((10 : ℚ), 0)]) [GREEN])
      ((0 : ℚ), 0)) ((1 : ℚ), 0)).pose
      (pose_cb (pose_cb (traffic_cb (initState [((10 : ℚ), 0)]) [GREEN])
      ((0 : ℚ), 0)) ((1 : ℚ), 0)).previous_pose
      (pose_cb (pose_cb (traffic_cb (initState [((10 : ℚ), 0)]) [GREEN])
      ((0 : ℚ), 0)) ((1 : ℚ), 0)).lights
      (pose_cb (pose_cb (traffic_cb (initState [((10 : ℚ), 0)]) [GREEN])
      ((0 : ℚ), 0)) ((1 : ℚ), 0)).stop_line_positions = some (some ⟨0, GREEN, 81⟩) := by
    norm_num [select_candidate, selectLoop, beats, dist_sq, dotv, vsub,
      pose_cb, traffic_cb, initState]
  have hd : (⟨0, GREEN, 81⟩ : Cand).distSq
      < LIGHT_DISTANCE_THRESHOLD * LIGHT_DISTANCE_THRESHOLD := by
    norm_num [LIGHT_DISTANCE_THRESHOLD]
  have hsl : (pose_cb (pose_cb (traffic_cb (initState [((10 : ℚ), 0)]) [GREEN])
      ((0 : ℚ), 0)) ((1 : ℚ), 0)).stop_line_positions[(⟨0, GREEN, 81⟩ : Cand).idx]?
      = some ((10 : ℚ), 0) := rfl
  exact ⟨htree, hsel, hd, hsl,
    C9_no_path_guard (fun _ => GREEN) _ 0 _ _ htree hsel hd hsl⟩

/-! ### Justification of the squared-distance modelling -/

/-- A squared Euclidean distance is nonnegative. -/
theorem dist_sq_nonneg (a b : Point) : 0 ≤ dist_sq a b :=
  add_nonneg (mul_self_nonneg _) (mul_self_nonneg _)

/-- Comparing two of the source's `math.sqrt` distances is the same as
comparing the squared distances the embedding uses. -/
theorem sqrt_dist_comparison (p a b : Point) :
    Real.sqrt ((dist_sq p a : ℚ) : ℝ) < Real.sqrt ((dist_sq p b : ℚ) : ℝ)
      ↔ dist_sq p a < dist_sq p b := by
  rw [Real.sqrt_lt_sqrt_iff (by exact_mod_cast dist_sq_nonneg p a)]
  exact_mod_cast Iff.rfl

/-- Comparing a `math.sqrt` distance against the positive constant
threshold is the same as comparing the squared distance against the squared
threshold. -/
theorem sqrt_threshold_comparison (a b : Point) :
    Real.sqrt ((dist_sq a b : ℚ) : ℝ)
        < ((LIGHT_DISTANCE_THRESHOLD : ℚ) : ℝ)
      ↔ dist_sq a b < LIGHT_DISTANCE_THRESHOLD * LIGHT_DISTANCE_THRESHOLD := by
  rw [Real.sqrt_lt' (by norm_num [LIGHT_DISTANCE_THRESHOLD])]
  rw [sq]
  exact_mod_cast Iff.rfl

end TLDetector
